import Mathlib

/-!
Shallow embedding of the NFL ETL pipeline (load_api.py, load_csv_to_oracle.py).

Modelling conventions, fixed once for the whole file:
* JSON responses are modelled by Lean structures whose fields are the keys the
  source code actually reads; a missing key is `none`.
* `fetch_json` returns parsed JSON or `None` on any failure.  Every caller in
  the source immediately truthiness-checks the result, so a falsy (empty)
  response is observationally identical to `None`; we model the remote service
  as an `Env` of functions returning `Option` responses, with `none` covering
  both a failed fetch and a falsy response body.
* Python truthiness on optional strings/ints (`x or y`, `if not x`) treats
  `None`, `""` and `0` as falsy; helpers `pyOrS`, `pyOrOI` encode this.
* Python string slicing `s[:n]` is by characters, matching `List.take` on
  `String.data`; `str.split()` splits on whitespace runs dropping empties;
  `str.split(sep)` keeps empty components.
* JSON numeric stat/score values are modelled as `Int` (the source applies
  `int(...)` to them, which never fails on a finite number).
-/

set_option linter.all false

/-- Python `a or b` for an optional string `a` and string default `b`:
`None` and `""` are falsy and fall through to `b`. -/
def pyOrS (a : Option String) (b : String) : String :=
  match a with
  | some s => if s = "" then b else s
  | none => b

/-- Python `a or b` on optional ints: `None` and `0` are falsy. -/
def pyOrOI (a : Option Int) (b : Option Int) : Option Int :=
  match a with
  | some v => if v = 0 then b else some v
  | none => b

/-- Python slice `s[:n]` (character based). -/
def pyTake (s : String) (n : Nat) : String := ⟨s.data.take n⟩

/-- Python `s.upper()` (ASCII case suffices for the data in this pipeline). -/
def pyUpper (s : String) : String := ⟨s.data.map Char.toUpper⟩

/-- Python `s.strip()` on a character list. -/
def pyStripChars (l : List Char) : List Char :=
  ((l.dropWhile Char.isWhitespace).reverse.dropWhile Char.isWhitespace).reverse

/-- Helper for Python `s.split()` (split on whitespace runs, no empties). -/
def splitWsAux : List Char → List Char → List (List Char)
  | [], acc => if acc.isEmpty then [] else [acc.reverse]
  | c :: cs, acc =>
    if c.isWhitespace then
      if acc.isEmpty then splitWsAux cs [] else acc.reverse :: splitWsAux cs []
    else splitWsAux cs (c :: acc)

/-- Python `s.split()`. -/
def splitWs (s : String) : List (List Char) := splitWsAux s.data []

/-- Python `s.split(sep)` (keeps empty components, never returns `[]`). -/
def pySplitOn (sep : Char) : List Char → List (List Char)
  | [] => [[]]
  | c :: cs =>
    match pySplitOn sep cs with
    | h :: t => if c = sep then [] :: h :: t else (c :: h) :: t
    | [] => [[c]]

/-- Python `s.rstrip("/")`. -/
def rstripSlash (l : List Char) : List Char :=
  (l.reverse.dropWhile (fun c => c = '/')).reverse

/-- Digit-string value, `none` when empty or any non-digit appears. -/
def digitsVal (ds : List Char) : Option Nat :=
  if ds.isEmpty then none
  else if ds.all Char.isDigit then
    some (ds.foldl (fun a c => a * 10 + (c.toNat - 48)) 0)
  else none

/-- Python `int(s)` on a string: optional surrounding whitespace, optional
sign, decimal digits; `none` models the raised `ValueError`. -/
def pyIntParse (s : String) : Option Int :=
  match pyStripChars s.data with
  | '-' :: ds => (digitsVal ds).map (fun n => -(n : Int))
  | '+' :: ds => (digitsVal ds).map (fun n => (n : Int))
  | ds => (digitsVal ds).map (fun n => (n : Int))

/-- `safe_int`: `int(value)` with every exception mapped to `None`
(`int(None)` raises, hence `none.bind`). -/
def safe_int (value : Option String) : Option Int := value.bind pyIntParse

/-- `split_name`: first token and last token of the whitespace-split name;
a single token yields an empty last name. -/
def split_name (full_name : String) : String × String :=
  match splitWs full_name with
  | [] => ("", "")
  | [p] => (⟨p⟩, "")
  | p :: rest => (⟨p⟩, ⟨rest.getLastD []⟩)

/-- `parse_id_from_ref`:
`int(ref.rstrip("/").split("/")[-1].split("?")[0])` with failures as `none`;
a falsy (`None` or empty) ref short-circuits to `none`. -/
def parse_id_from_ref (ref : Option String) : Option Int :=
  match ref with
  | none => none
  | some s =>
    if s = "" then none
    else
      let lastComp := (pySplitOn '/' (rstripSlash s.data)).getLastD []
      let beforeQ := (pySplitOn '?' lastComp).headD []
      pyIntParse ⟨beforeQ⟩

/-- The static 33-entry abbreviation to (conference, division) table of
`conf_div_from_abbr`. -/
def confDivTable : List (String × String × String) :=
  [("BUF", "AFC", "E"), ("MIA", "AFC", "E"), ("NE", "AFC", "E"), ("NYJ", "AFC", "E"),
   ("BAL", "AFC", "N"), ("CIN", "AFC", "N"), ("CLE", "AFC", "N"), ("PIT", "AFC", "N"),
   ("HOU", "AFC", "S"), ("IND", "AFC", "S"), ("JAX", "AFC", "S"), ("TEN", "AFC", "S"),
   ("DEN", "AFC", "W"), ("KC", "AFC", "W"), ("LAC", "AFC", "W"), ("LV", "AFC", "W"),
   ("DAL", "NFC", "E"), ("NYG", "NFC", "E"), ("PHI", "NFC", "E"), ("WAS", "NFC", "E"), ("WSH", "NFC", "E"),
   ("CHI", "NFC", "N"), ("DET", "NFC", "N"), ("GB", "NFC", "N"), ("MIN", "NFC", "N"),
   ("ATL", "NFC", "S"), ("CAR", "NFC", "S"), ("NO", "NFC", "S"), ("TB", "NFC", "S"),
   ("ARI", "NFC", "W"), ("LAR", "NFC", "W"), ("LA", "NFC", "W"), ("SF", "NFC", "W"), ("SEA", "NFC", "W")]

/-- `conf_div_from_abbr`: `mapping.get(abbr.upper(), ("", ""))`. -/
def conf_div_from_abbr (abbr : String) : String × String :=
  match confDivTable.find? (fun e => e.1 == pyUpper abbr) with
  | some e => (e.2.1, e.2.2)
  | none => ("", "")

/-! ### JSON response shapes (the keys the source reads) -/

/-- A team record inside the site teams response. -/
structure TeamJson where
  id : Option String
  abbreviation : Option String
  shortDisplayName : Option String
  displayName : Option String
  name : Option String
  location : Option String
deriving DecidableEq

/-- `entry.get("team", {})`. -/
structure TeamEntry where
  team : Option TeamJson
deriving DecidableEq

structure LeagueJson where
  teams : List TeamEntry
deriving DecidableEq

structure SportJson where
  leagues : List LeagueJson
deriving DecidableEq

structure TeamsResponse where
  sports : List SportJson
deriving DecidableEq

/-- `player.get("position")` is either an object or a bare string. -/
inductive PositionJson where
  | obj (abbreviation : Option String)
  | str (s : String)
deriving DecidableEq

structure AthleteJson where
  id : Option String
  fullName : Option String
  displayName : Option String
  position : Option PositionJson
deriving DecidableEq

structure PositionGroup where
  athletes : List AthleteJson
deriving DecidableEq

structure RosterResponse where
  positionGroups : List PositionGroup
deriving DecidableEq

/-- A hyperlink object `{"$ref": ...}`. -/
structure RefObj where
  ref : Option String
deriving DecidableEq

structure CoachItem where
  ref : Option String
deriving DecidableEq

structure CoachListing where
  items : List CoachItem
deriving DecidableEq

structure CoachData where
  id : Option String
  firstName : Option String
  lastName : Option String
deriving DecidableEq

structure ScoreData where
  value : Option Int
deriving DecidableEq

structure CompetitorJson where
  id : Option String
  homeAway : Option String
  score : Option RefObj
deriving DecidableEq

structure CompJson where
  id : Option String
  date : Option String
  competitors : List CompetitorJson
  status : Option RefObj
deriving DecidableEq

structure EventJson where
  id : Option String
  date : Option String
  week : Option String
  competitions : List CompJson
deriving DecidableEq

structure WeekData where
  items : List RefObj
deriving DecidableEq

structure StatusType where
  state : Option String
deriving DecidableEq

/-- Game-status response; `statusType` models `status.get("type", {})`. -/
structure StatusData where
  statusType : Option StatusType
deriving DecidableEq

/-- One athlete entry of a boxscore category. -/
structure AthleteStatRef where
  statistics : Option RefObj
  athlete : Option RefObj
deriving DecidableEq

structure BoxCategory where
  athletes : List AthleteStatRef
deriving DecidableEq

/-- Team boxscore block; `categories` models `splits.categories`. -/
structure TeamStatBlock where
  categories : List BoxCategory
deriving DecidableEq

structure StatItem where
  name : Option String
  value : Option Int
deriving DecidableEq

structure StatCategory where
  stats : List StatItem
deriving DecidableEq

/-- Athlete detailed statistics; `categories` models `splits.categories`. -/
structure StatsDetail where
  categories : List StatCategory
deriving DecidableEq

/-! ### Output row types (the five tables) -/

structure TeamRow where
  TeamID : Option Int
  TeamName : String
  City : String
  Conference : String
  Division : String
deriving DecidableEq

structure PlayerRow where
  PlayerID : Option Int
  Fname : String
  Lname : String
  Position : String
  TeamID : Int
deriving DecidableEq

structure CoachRow where
  CoachID : Option Int
  LName : String
  FName : String
  TeamID : Int
  Role : String
deriving DecidableEq

structure GameRow where
  GameID : Option Int
  GameDate : String
  Week : Int
  HomeTeamID : Option Int
  AwayTeamID : Option Int
  HomeTeamScore : Option Int
  AwayTeamScore : Option Int
deriving DecidableEq

/-- One `stats_meta` entry retained by `load_games` for the stats stage. -/
structure MetaEntry where
  event_id : Option Int
  competition_id : Option Int
  competitors : List CompetitorJson
  status_ref : Option String
deriving DecidableEq

structure StatRow where
  GameID : Int
  PlayerID : Int
  Pass_yrd : Int
  Rush_yrd : Int
  Rec_yrd : Int
  Touchdowns : Int
  Tackles : Int
  Interceptions : Int
deriving DecidableEq

/-- The remote service for one run (base URLs and season are fixed, so each
endpoint family is a function of the varying URL components). `none` is a
failed fetch or a falsy response body. -/
structure Env where
  teams : Option TeamsResponse
  roster : Int → Option RosterResponse
  coachList : Int → Int → Option CoachListing
  coachDetail : String → Option CoachData
  weekEvents : Int → Nat → Option WeekData
  event : String → Option EventJson
  score : String → Option ScoreData
  statusOf : String → Option StatusData
  teamStats : Int → Int → Int → Option TeamStatBlock
  athleteStats : String → Option StatsDetail

/-! ### Extractor (load_api.py) -/

def defaultTeamJson : TeamJson := ⟨none, none, none, none, none, none⟩

/-- One iteration of the team loop body of `load_teams`; `none` models the
uncaught `IndexError` from `"".split()[0]` when the city source is blank. -/
def buildTeamRow (t : TeamJson) : Option TeamRow :=
  let abbr := pyUpper (pyOrS t.abbreviation "")
  let cd := conf_div_from_abbr abbr
  match splitWs (pyOrS t.location (pyOrS t.displayName "")) with
  | [] => none
  | c :: _ =>
    some { TeamID := safe_int t.id
           TeamName := pyTake (pyOrS t.shortDisplayName (pyOrS t.displayName (pyOrS t.name ""))) 15
           City := pyTake ⟨c⟩ 15
           Conference := cd.1
           Division := cd.2 }

/-- The team loop of `load_teams`: the first raising record aborts. -/
def buildTeamRows : List TeamJson → Option (List TeamRow)
  | [] => some []
  | t :: ts =>
    match buildTeamRow t, buildTeamRows ts with
    | some r, some rs => some (r :: rs)
    | _, _ => none

/-- The nested sports/leagues/teams iteration of `load_teams`. -/
def teamRecs (data : TeamsResponse) : List TeamJson :=
  data.sports.bind fun sp =>
    sp.leagues.bind fun lg =>
      lg.teams.map fun e => e.team.getD defaultTeamJson

/-- `load_teams`: raises `RuntimeError` when the teams fetch yields no data,
otherwise builds one row per nested team record. -/
def load_teams (env : Env) : Except String (List TeamRow) :=
  match env.teams with
  | none => Except.error "Could not fetch teams"
  | some data =>
    match buildTeamRows (teamRecs data) with
    | none => Except.error "IndexError: list index out of range"
    | some rows => Except.ok rows

/-- `pos.get("abbreviation") if isinstance(pos, dict) else pos`, after
`pos = player.get("position") or {}`. -/
def positionAbbr (p : Option PositionJson) : Option String :=
  match p with
  | some (PositionJson.str s) => if s = "" then none else some s
  | some (PositionJson.obj a) => a
  | none => none

/-- Athlete loop body of `load_roster`; `none` models the `continue` on an
unparseable (or zero, hence falsy) athlete id. -/
def buildPlayerRow (team_id : Int) (a : AthleteJson) : Option PlayerRow :=
  match safe_int a.id with
  | none => none
  | some pid =>
    if pid = 0 then none
    else
      let full := pyOrS a.fullName (pyOrS a.displayName "")
      let fl := split_name full
      some { PlayerID := some pid
             Fname := pyTake fl.1 15
             Lname := pyTake fl.2 15
             Position := pyTake (pyUpper (pyOrS (positionAbbr a.position) "")) 4
             TeamID := team_id }

/-- `load_roster`: a failed roster fetch yields the empty list. -/
def load_roster (env : Env) (team_id : Int) : List PlayerRow :=
  match env.roster team_id with
  | none => []
  | some d => d.positionGroups.bind fun g => g.athletes.filterMap (buildPlayerRow team_id)

/-- `df.drop_duplicates(subset=["PlayerID"])` (keep first), with the already
seen keys accumulated in `seen`. -/
def dropDupByPlayerID (seen : List (Option Int)) : List PlayerRow → List PlayerRow
  | [] => []
  | r :: rest =>
    if r.PlayerID ∈ seen then dropDupByPlayerID seen rest
    else r :: dropDupByPlayerID (r.PlayerID :: seen) rest

/-- `load_all_players`: concatenated rosters, deduplicated by PlayerID. -/
def load_all_players (env : Env) (team_ids : List Int) : List PlayerRow :=
  dropDupByPlayerID [] (team_ids.bind (load_roster env))

/-- Inner item loop of `load_coaches`: the first item whose detail fetch
succeeds yields the row and breaks; failed fetches fall through. -/
def firstCoachRow (env : Env) (tid : Int) : List CoachItem → Option CoachRow
  | [] => none
  | item :: rest =>
    let cdata := match item.ref with
      | some r => if r = "" then none else env.coachDetail r
      | none => none
    match cdata with
    | none => firstCoachRow env tid rest
    | some cd =>
      some { CoachID := safe_int cd.id
             LName := pyTake (pyOrS cd.lastName "") 15
             FName := pyTake (pyOrS cd.firstName "") 15
             TeamID := tid
             Role := "Head Coach" }

/-- `load_coaches`: at most one coach row per team; note the row is emitted
even when `safe_int` fails on the coach id. -/
def load_coaches (env : Env) (team_ids : List Int) (season : Int) : List CoachRow :=
  team_ids.filterMap fun tid =>
    match env.coachList season tid with
    | none => none
    | some listing => firstCoachRow env tid listing.items

/-- `fetch_score`: dereference the score `$ref` and take its `value`. -/
def fetch_score (env : Env) (score_ref : Option RefObj) : Option Int :=
  match score_ref with
  | none => none
  | some sr =>
    match sr.ref with
    | none => none
    | some r => if r = "" then none else (env.score r).bind fun sd => sd.value

/-- Python `s.split(sep)[0]`: the prefix before the first separator. -/
def pyTakeUntil (c : Char) (s : String) : String :=
  ⟨s.data.takeWhile (fun x => x ≠ c)⟩

/-- Per-event body of the `load_games` loop; `none` models the `continue`
when the event fetch fails upstream or a home/away competitor is missing. -/
def processEvent (env : Env) (week : Nat) (ev : EventJson) : Option (GameRow × MetaEntry) :=
  let event_id := safe_int ev.id
  let comp := ev.competitions.head?
  let comp_id := pyOrOI (comp.bind fun c => safe_int c.id) event_id
  let competitors := (comp.map fun c => c.competitors).getD []
  match competitors.find? (fun c => c.homeAway == some "home"),
        competitors.find? (fun c => c.homeAway == some "away") with
  | some home, some away =>
    let game_date := pyOrS (comp.bind fun c => c.date) (pyOrS ev.date "")
    let week_num : Int :=
      match parse_id_from_ref ev.week with
      | some v => if v = 0 then (week : Int) else v
      | none => (week : Int)
    some ({ GameID := event_id
            GameDate := pyTakeUntil 'T' game_date
            Week := week_num
            HomeTeamID := safe_int home.id
            AwayTeamID := safe_int away.id
            HomeTeamScore := fetch_score env home.score
            AwayTeamScore := fetch_score env away.score },
          { event_id := event_id
            competition_id := comp_id
            competitors := [home, away]
            status_ref := (comp.bind fun c => c.status).bind fun r => r.ref })
  | _, _ => none

/-- Inner item loop of a single scheduled week. -/
def gamesFromItems (env : Env) (week : Nat) (items : List RefObj) : List GameRow × List MetaEntry :=
  let processed := items.filterMap fun it =>
    match it.ref with
    | none => none
    | some r => if r = "" then none else (env.event r).bind (processEvent env week)
  (processed.map Prod.fst, processed.map Prod.snd)

/-- The week loop of `load_games`, with the remaining week budget as fuel.
The first component records which week listings were requested (each loop
iteration fetches exactly one week URL before deciding whether to break). -/
def load_games_go (env : Env) (season : Int) (week fuel : Nat) :
    List Nat × (List GameRow × List MetaEntry) :=
  match fuel with
  | 0 => ([], ([], []))
  | Nat.succ f =>
    match env.weekEvents season week with
    | none => ([week], ([], []))
    | some wd =>
      if wd.items.isEmpty then ([week], ([], []))
      else
        let cur := gamesFromItems env week wd.items
        let rest := load_games_go env season (week + 1) f
        (week :: rest.1, (cur.1 ++ rest.2.1, cur.2 ++ rest.2.2))

/-- `load_games`: weeks `1 .. max_weeks`, stopping at the first week whose
listing is absent or empty. -/
def load_games (env : Env) (season : Int) (max_weeks : Nat) :
    List Nat × (List GameRow × List MetaEntry) :=
  load_games_go env season 1 max_weeks

/-- The `--max-weeks` default of the CLI surface. -/
def default_max_weeks : Nat := 18

/-- `stats_lookup`: flatten `splits.categories[*].stats[*]` into the
name-to-value dict (later writes overwrite earlier ones). -/
def stats_lookup (d : StatsDetail) : List (Option String × Option Int) :=
  d.categories.bind fun c => c.stats.map fun s => (s.name, s.value)

/-- `lookup.get(k)`: the last written value for `k`, `none` when absent. -/
def lookupStat (vals : List (Option String × Option Int)) (k : String) : Option Int :=
  (vals.reverse.find? (fun p => p.1 == some k)).bind fun p => p.2

/-- The row built from one athlete's detailed statistics. -/
def buildStatRow (eid aid : Int) (detail : StatsDetail) : StatRow :=
  let l := stats_lookup detail
  { GameID := eid
    PlayerID := aid
    Pass_yrd := (pyOrOI (lookupStat l "passingYards") (lookupStat l "netPassingYards")).getD 0
    Rush_yrd := (lookupStat l "rushingYards").getD 0
    Rec_yrd := (lookupStat l "receivingYards").getD 0
    Touchdowns := (lookupStat l "passingTouchdowns").getD 0
      + (lookupStat l "rushingTouchdowns").getD 0
      + (lookupStat l "receivingTouchdowns").getD 0
    Tackles := (pyOrOI (lookupStat l "totalTackles") (lookupStat l "tackles")).getD 0
    Interceptions := (lookupStat l "interceptions").getD 0 }

/-- `(athlete_id, stat_ref)` pairs collected from one team's boxscore;
both the ref and the parsed id must be truthy. -/
def collectAthleteRefs (b : TeamStatBlock) : List (Int × String) :=
  b.categories.bind fun c =>
    c.athletes.filterMap fun a =>
      let stat_ref := a.statistics.bind fun r => r.ref
      let athlete_id := parse_id_from_ref (a.athlete.bind fun r => r.ref)
      match stat_ref, athlete_id with
      | some sr, some aid => if sr = "" ∨ aid = 0 then none else some (aid, sr)
      | _, _ => none

/-- The dedup-and-fetch loop over one competitor's athlete refs; `seen` is
keyed by `(event_id, athlete_id)` and an athlete is marked seen before the
detail fetch, exactly as in the source. -/
def statRowsLoop (env : Env) (eid : Int) :
    List (Int × String) → List (Int × Int) → List StatRow
  | [], _ => []
  | (aid, sref) :: rest, seen =>
    if (eid, aid) ∈ seen then statRowsLoop env eid rest seen
    else
      match env.athleteStats sref with
      | none => statRowsLoop env eid rest ((eid, aid) :: seen)
      | some detail => buildStatRow eid aid detail :: statRowsLoop env eid rest ((eid, aid) :: seen)

/-- Rows contributed by one competitor of one retained event.  The `seen`
set starts empty here because the source initialises it inside the
competitor loop. -/
def rowsForCompetitor (env : Env) (eid cid : Int) (c : CompetitorJson) : List StatRow :=
  match safe_int c.id with
  | none => []
  | some tid =>
    if tid = 0 then []
    else
      match env.teamStats eid cid tid with
      | none => []
      | some block => statRowsLoop env eid (collectAthleteRefs block) []

/-- Rows contributed by one `stats_meta` entry: skip on falsy ids, then skip
only when a status was actually fetched and its state is not `"post"`. -/
def statsForEntry (env : Env) (e : MetaEntry) : List StatRow :=
  match e.event_id, e.competition_id with
  | some eid, some cid =>
    if eid = 0 ∨ cid = 0 then []
    else
      let status := match e.status_ref with
        | some r => if r = "" then none else env.statusOf r
        | none => none
      match status with
      | some s =>
        if (s.statusType.bind fun t => t.state) ≠ some "post" then []
        else e.competitors.bind (rowsForCompetitor env eid cid)
      | none => e.competitors.bind (rowsForCompetitor env eid cid)
  | _, _ => []

/-- `load_game_stats` over the retained meta entries. -/
def load_game_stats (env : Env) (meta : List MetaEntry) : List StatRow :=
  meta.bind (statsForEntry env)

/-- The five tables produced by one extractor run. -/
structure Frames where
  teams : List TeamRow
  players : List PlayerRow
  coaches : List CoachRow
  games : List GameRow
  game_stats : List StatRow
deriving DecidableEq

/-- `players[players["PlayerID"].isin(used_ids)]`. -/
def prunePlayers (used : List Int) (ps : List PlayerRow) : List PlayerRow :=
  ps.filter fun p =>
    match p.PlayerID with
    | some q => used.contains q
    | none => false

/-- `main` of load_api.py (file writing and timing aside): the only failure
paths are the two uncaught exceptions inside `load_teams`. -/
def extractorMain (env : Env) (season : Int) (skip_game_stats : Bool)
    (max_weeks : Nat) : Except String Frames :=
  match load_teams env with
  | Except.error e => Except.error e
  | Except.ok teams =>
    let team_ids := teams.filterMap fun t => t.TeamID
    let players := load_all_players env team_ids
    let coaches := load_coaches env team_ids season
    let gm := load_games env season max_weeks
    let game_stats := if skip_game_stats then [] else load_game_stats env gm.2.2
    let used_ids := game_stats.map fun r => r.PlayerID
    let players := if game_stats.isEmpty then players else prunePlayers used_ids players
    Except.ok { teams := teams, players := players, coaches := coaches,
                games := gm.2.1, game_stats := game_stats }

/-! ### Loader (load_csv_to_oracle.py) -/

/-- A loaded CSV row of a parent table, projected to its leading key column
(`r[0]`); `rest` keeps the remaining columns, which the orphan filter never
reads. -/
structure CsvKeyRow where
  key : Option Int
  rest : List (Option String)
deriving DecidableEq

/-- A GAME_STATS CSV row: `r[0]` is GameID, `r[1]` is PlayerID. -/
structure GameStatsCsvRow where
  GameID : Option Int
  PlayerID : Option Int
  vals : List (Option Int)
deriving DecidableEq

/-- `player_ids = {r[0] for r in rows if r and r[0] is not None}`. -/
def insertedKeyIDs (rows : List CsvKeyRow) : List Int :=
  rows.filterMap fun r => r.key

/-- The GAME_STATS orphan filter of the loader main loop. -/
def filterGameStats (game_ids player_ids : List Int) (rows : List GameStatsCsvRow) :
    List GameStatsCsvRow :=
  rows.filter fun r =>
    match r.GameID, r.PlayerID with
    | some g, some p => decide (g ∈ game_ids) && decide (p ∈ player_ids)
    | _, _ => false

/-- The GAME_STATS rows that reach `insert_rows` in one loader run, given the
PLAYER and GAME rows inserted earlier in the same run. -/
def loaderStatsInserted (players games : List CsvKeyRow) (stats : List GameStatsCsvRow) :
    List GameStatsCsvRow :=
  filterGameStats (insertedKeyIDs games) (insertedKeyIDs players) stats

/-- `len(rows) - len(filtered)`, the skipped count the loader logs. -/
def loaderSkippedCount (players games : List CsvKeyRow) (stats : List GameStatsCsvRow) : Nat :=
  stats.length - (loaderStatsInserted players games stats).length

/-! ### Derived notions for the week-scan claims -/

/-- Week `w` was listed with at least one event. -/
def weekNonempty (env : Env) (season : Int) (w : Nat) : Prop :=
  ∃ wd, env.weekEvents season w = some wd ∧ wd.items ≠ []

/-- The game rows week `w` contributes when the scan reaches it. -/
def gamesOfWeek (env : Env) (season : Int) (w : Nat) : List GameRow :=
  match env.weekEvents season w with
  | none => []
  | some wd => if wd.items.isEmpty then [] else (gamesFromItems env w wd.items).1

/-! ### Concrete runs used as counterexamples and witnesses -/

/-- The remote service with every call failing. -/
def emptyEnv : Env :=
  { teams := none
    roster := fun _ => none
    coachList := fun _ _ => none
    coachDetail := fun _ => none
    weekEvents := fun _ _ => none
    event := fun _ => none
    score := fun _ => none
    statusOf := fun _ => none
    teamStats := fun _ _ _ => none
    athleteStats := fun _ => none }

def teamKC : TeamJson :=
  ⟨some "12", some "KC", some "Chiefs", some "Kansas City Chiefs", some "Chiefs", some "Kansas City"⟩

/-- A run where only the teams listing answers, with one well-formed team. -/
def envOneTeam : Env :=
  { emptyEnv with teams := some ⟨[⟨[⟨[⟨some teamKC⟩]⟩]⟩]⟩ }

/-- A team record with blank `location` and `displayName`. -/
def teamNoCity : TeamJson := ⟨some "99", some "KC", none, none, some "Mystery", none⟩

def envCityCrash : Env :=
  { emptyEnv with teams := some ⟨[⟨[⟨[⟨some teamNoCity⟩]⟩]⟩]⟩ }

/-- A run whose only coach detail has an unparseable id. -/
def envCoachNull : Env :=
  { emptyEnv with
    coachList := fun _ tid => if tid = 1 then some ⟨[⟨some "cr"⟩]⟩ else none
    coachDetail := fun r => if r = "cr" then some ⟨some "abc", some "Bill", none⟩ else none }

/-- An event whose own `id` is missing but whose competitors are fine. -/
def eventNoId : EventJson :=
  ⟨none, some "2025-09-07T13:00Z", none,
   [⟨some "401", some "2025-09-07T13:00Z",
     [⟨some "7", some "home", none⟩, ⟨some "8", some "away", none⟩], none⟩]⟩

def envGameNoId : Env :=
  { emptyEnv with
    weekEvents := fun _ w => if w = 1 then some ⟨[⟨some "e1"⟩]⟩ else some ⟨[]⟩
    event := fun r => if r = "e1" then some eventNoId else none }

/-- A boxscore block whose only athlete is athlete 9 with stat ref `s9`. -/
def block9 : TeamStatBlock := ⟨[⟨[⟨some ⟨some "s9"⟩, some ⟨some "a/9"⟩⟩]⟩]⟩

/-- The all-zero stats row for (game 1, athlete 9). -/
def row19 : StatRow := ⟨1, 9, 0, 0, 0, 0, 0, 0⟩

/-- A retained event whose status reference exists but cannot be fetched. -/
def entryStatusDown : MetaEntry :=
  ⟨some 1, some 1, [⟨some "5", some "home", none⟩], some "st"⟩

def envStatusDown : Env :=
  { emptyEnv with
    teamStats := fun e c t =>
      if e = 1 then if c = 1 then if t = 5 then some block9 else none else none else none
    athleteStats := fun r => if r = "s9" then some ⟨[]⟩ else none }

/-- A retained event with an in-progress fetched status. -/
def entryLive : MetaEntry :=
  ⟨some 1, some 1, [⟨some "5", some "home", none⟩], some "st2"⟩

def envLive : Env :=
  { envStatusDown with
    statusOf := fun r => if r = "st2" then some ⟨some ⟨some "in"⟩⟩ else none }

/-- A retained event where both competitors' boxscores list athlete 9. -/
def entryDupAth : MetaEntry :=
  ⟨some 1, some 1, [⟨some "5", some "home", none⟩, ⟨some "6", some "away", none⟩], none⟩

def envDupAth : Env :=
  { emptyEnv with
    teamStats := fun e c t =>
      if e = 1 then if c = 1 then if t = 5 ∨ t = 6 then some block9 else none else none else none
    athleteStats := fun r => if r = "s9" then some ⟨[]⟩ else none }

def athMahomes : AthleteJson :=
  ⟨some "3139477", some "Patrick Mahomes", none, some (PositionJson.obj (some "qb"))⟩

/-- An athlete listed on two rosters. -/
def athShared : AthleteJson :=
  ⟨some "42", some "Shared Guy", none, some (PositionJson.str "WR")⟩

def envRoster : Env :=
  { emptyEnv with
    roster := fun tid =>
      if tid = 1 then some ⟨[⟨[athMahomes, athShared]⟩]⟩
      else if tid = 2 then some ⟨[⟨[athShared]⟩]⟩
      else none }

/-- Weeks 1 and 2 scheduled, week 3 listed empty, weeks 4 and 5 scheduled
(they must never be reached). -/
def envWeeks : Env :=
  { emptyEnv with
    weekEvents := fun _ w =>
      if w = 3 then some ⟨[]⟩ else if w ≤ 5 then some ⟨[⟨some "e1"⟩]⟩ else none
    event := fun r => if r = "e1" then some eventNoId else none }

/-- Week 1 scheduled, the week 2 listing fetch fails. -/
def envWeekFail : Env :=
  { emptyEnv with
    weekEvents := fun _ w => if w = 1 then some ⟨[⟨some "e1"⟩]⟩ else none
    event := fun r => if r = "e1" then some eventNoId else none }

/-- Loader fixtures: PLAYER rows with keys 2 and null, one GAME row key 1,
and three GAME_STATS rows of which only the first has both parents. -/
def csvPlayers : List CsvKeyRow := [⟨some 2, []⟩, ⟨none, []⟩]

def csvGames : List CsvKeyRow := [⟨some 1, []⟩]

def csvStats : List GameStatsCsvRow :=
  [⟨some 1, some 2, []⟩, ⟨some 1, some 3, []⟩, ⟨none, some 2, []⟩]

/-! ### Supporting lemmas -/

theorem pyTake_length_le (s : String) (n : Nat) : (pyTake s n).length ≤ n := by
  show (s.data.take n).length ≤ n
  simpa using List.length_take_le n s.data

theorem buildTeamRows_mem {l : List TeamJson} {rows : List TeamRow}
    (h : buildTeamRows l = some rows) {r : TeamRow} (hr : r ∈ rows) :
    ∃ t ∈ l, buildTeamRow t = some r := by
  induction l generalizing rows with
  | nil =>
    simp only [buildTeamRows, Option.some.injEq] at h
    subst h
    cases hr
  | cons t ts ih =>
    unfold buildTeamRows at h
    cases hb : buildTeamRow t with
    | none => rw [hb] at h; cases h
    | some r0 =>
      rw [hb] at h
      cases hbs : buildTeamRows ts with
      | none => rw [hbs] at h; cases h
      | some rs =>
        rw [hbs] at h
        simp only [Option.some.injEq] at h
        subst h
        rcases List.mem_cons.mp hr with hr | hr
        · exact ⟨t, List.mem_cons_self .., hr ▸ hb⟩
        · obtain ⟨t1, ht1, hbt1⟩ := ih hbs hr
          exact ⟨t1, List.mem_cons_of_mem _ ht1, hbt1⟩

theorem buildTeamRow_lengths {t : TeamJson} {r : TeamRow}
    (h : buildTeamRow t = some r) :
    r.TeamName.length ≤ 15 ∧ r.City.length ≤ 15 := by
  unfold buildTeamRow at h
  cases hs : splitWs (pyOrS t.location (pyOrS t.displayName "")) with
  | nil => rw [hs] at h; cases h
  | cons c cs =>
    rw [hs] at h
    simp only [Option.some.injEq] at h
    subst h
    exact ⟨pyTake_length_le _ _, pyTake_length_le _ _⟩

theorem buildPlayerRow_inv {tid : Int} {a : AthleteJson} {r : PlayerRow}
    (h : buildPlayerRow tid a = some r) :
    r.PlayerID ≠ none ∧ r.Fname.length ≤ 15 ∧ r.Lname.length ≤ 15 ∧
      r.Position.length ≤ 4 := by
  unfold buildPlayerRow at h
  cases hi : safe_int a.id with
  | none => rw [hi] at h; cases h
  | some pid =>
    rw [hi] at h
    dsimp only at h
    by_cases hz : pid = 0
    · rw [if_pos hz] at h; cases h
    · rw [if_neg hz] at h
      simp only [Option.some.injEq] at h
      subst h
      exact ⟨by simp, pyTake_length_le _ _, pyTake_length_le _ _, pyTake_length_le _ _⟩

theorem load_roster_mem {env : Env} {tid : Int} {r : PlayerRow}
    (h : r ∈ load_roster env tid) : ∃ a, buildPlayerRow tid a = some r := by
  unfold load_roster at h
  cases he : env.roster tid with
  | none => rw [he] at h; cases h
  | some d =>
    rw [he] at h
    obtain ⟨g, _, hm⟩ := List.mem_bind.mp h
    obtain ⟨a, _, hb⟩ := List.mem_filterMap.mp hm
    exact ⟨a, hb⟩

theorem firstCoachRow_lengths {env : Env} {tid : Int} {c : CoachRow} :
    ∀ {items : List CoachItem}, firstCoachRow env tid items = some c →
      c.FName.length ≤ 15 ∧ c.LName.length ≤ 15 := by
  intro items
  induction items with
  | nil => intro h; cases h
  | cons item rest ih =>
    intro h
    unfold firstCoachRow at h
    cases hc : (match item.ref with
        | some r => if r = "" then none else env.coachDetail r
        | none => none : Option CoachData) with
    | none => rw [hc] at h; exact ih h
    | some cd =>
      rw [hc] at h
      simp only [Option.some.injEq] at h
      subst h
      exact ⟨pyTake_length_le _ _, pyTake_length_le _ _⟩

theorem load_coaches_mem {env : Env} {tids : List Int} {season : Int} {c : CoachRow}
    (h : c ∈ load_coaches env tids season) :
    ∃ tid listing, env.coachList season tid = some listing ∧
      firstCoachRow env tid listing.items = some c := by
  unfold load_coaches at h
  obtain ⟨tid, _, heq⟩ := List.mem_filterMap.mp h
  cases hl : env.coachList season tid with
  | none => rw [hl] at heq; cases heq
  | some listing =>
    rw [hl] at heq
    exact ⟨tid, listing, hl, heq⟩

theorem dropDupByPlayerID_spec (l : List PlayerRow) :
    ∀ seen : List (Option Int),
      (∀ r ∈ dropDupByPlayerID seen l, r.PlayerID ∉ seen ∧
        l.find? (fun x => x.PlayerID == r.PlayerID) = some r) ∧
      ((dropDupByPlayerID seen l).map (fun r => r.PlayerID)).Nodup := by
  induction l with
  | nil =>
    intro seen
    exact ⟨fun r hr => absurd hr (by simp [dropDupByPlayerID]), by simp [dropDupByPlayerID]⟩
  | cons x rest ih =>
    intro seen
    by_cases hmem : x.PlayerID ∈ seen
    · simp only [dropDupByPlayerID, if_pos hmem]
      refine ⟨fun r hr => ?_, (ih seen).2⟩
      obtain ⟨hseen, hfind⟩ := (ih seen).1 r hr
      refine ⟨hseen, ?_⟩
      rw [List.find?_cons_of_neg]
      · exact hfind
      · intro hbeq
        have hx : x.PlayerID = r.PlayerID := by simpa using hbeq
        exact hseen (hx ▸ hmem)
    · simp only [dropDupByPlayerID, if_neg hmem]
      constructor
      · intro r hr
        rcases List.mem_cons.mp hr with rfl | hr
        · refine ⟨hmem, ?_⟩
          rw [List.find?_cons_of_pos]
          simp
        · obtain ⟨hseen, hfind⟩ := (ih (x.PlayerID :: seen)).1 r hr
          have hne : x.PlayerID ≠ r.PlayerID := fun he =>
            hseen (he ▸ List.mem_cons_self _ _)
          refine ⟨fun hs => hseen (List.mem_cons_of_mem _ hs), ?_⟩
          rw [List.find?_cons_of_neg]
          · exact hfind
          · simpa using hne
      · rw [List.map_cons, List.nodup_cons]
        refine ⟨?_, (ih (x.PlayerID :: seen)).2⟩
        intro hmem2
        obtain ⟨r, hr, he⟩ := List.mem_map.mp hmem2
        obtain ⟨hseen, _⟩ := (ih (x.PlayerID :: seen)).1 r hr
        exact hseen (by rw [he]; exact List.mem_cons_self _ _)

theorem statRowsLoop_spec (env : Env) (eid : Int) :
    ∀ (refs : List (Int × String)) (seen : List (Int × Int)),
      (∀ r ∈ statRowsLoop env eid refs seen,
        r.GameID = eid ∧ (eid, r.PlayerID) ∉ seen) ∧
      ((statRowsLoop env eid refs seen).map (fun r => (r.GameID, r.PlayerID))).Nodup := by
  intro refs
  induction refs with
  | nil =>
    intro seen
    exact ⟨fun r hr => absurd hr (by simp [statRowsLoop]), by simp [statRowsLoop]⟩
  | cons p rest ih =>
    obtain ⟨aid, sref⟩ := p
    intro seen
    by_cases hmem : (eid, aid) ∈ seen
    · simp only [statRowsLoop, if_pos hmem]
      exact ih seen
    · simp only [statRowsLoop, if_neg hmem]
      cases ha : env.athleteStats sref with
      | none =>
        refine ⟨fun r hr => ?_, (ih ((eid, aid) :: seen)).2⟩
        obtain ⟨hg, hseen⟩ := (ih ((eid, aid) :: seen)).1 r hr
        exact ⟨hg, fun hs => hseen (List.mem_cons_of_mem _ hs)⟩
      | some detail =>
        constructor
        · intro r hr
          rcases List.mem_cons.mp hr with rfl | hr
          · exact ⟨rfl, hmem⟩
          · obtain ⟨hg, hseen⟩ := (ih ((eid, aid) :: seen)).1 r hr
            exact ⟨hg, fun hs => hseen (List.mem_cons_of_mem _ hs)⟩
        · rw [List.map_cons, List.nodup_cons]
          refine ⟨?_, (ih ((eid, aid) :: seen)).2⟩
          intro hmem2
          obtain ⟨r, hr, he⟩ := List.mem_map.mp hmem2
          obtain ⟨hg, hseen⟩ := (ih ((eid, aid) :: seen)).1 r hr
          apply hseen
          have hpid : r.PlayerID = aid := congrArg Prod.snd he
          rw [hpid]
          exact List.mem_cons_self _ _

theorem load_games_go_queried {env : Env} {season : Int} :
    ∀ (fuel s k : Nat), k ∈ (load_games_go env season s fuel).1 →
      s ≤ k ∧ ∀ j, s ≤ j → j < k → weekNonempty env season j := by
  intro fuel
  induction fuel with
  | zero => intro s k hk; cases hk
  | succ f ih =>
    intro s k hk
    unfold load_games_go at hk
    cases hw : env.weekEvents season s with
    | none =>
      rw [hw] at hk
      dsimp only at hk
      simp only [List.mem_singleton] at hk
      subst hk
      exact ⟨Nat.le_refl _, fun j hj1 hj2 => absurd hj2 (by omega)⟩
    | some wd =>
      rw [hw] at hk
      dsimp only at hk
      by_cases he : wd.items.isEmpty
      · rw [if_pos he] at hk
        simp only [List.mem_singleton] at hk
        subst hk
        exact ⟨Nat.le_refl _, fun j hj1 hj2 => absurd hj2 (by omega)⟩
      · rw [if_neg he] at hk
        rcases List.mem_cons.mp hk with rfl | hk
        · exact ⟨Nat.le_refl _, fun j hj1 hj2 => absurd hj2 (by omega)⟩
        · obtain ⟨hs1, hall⟩ := ih (s + 1) k hk
          refine ⟨by omega, fun j hj1 hj2 => ?_⟩
          rcases Nat.eq_or_lt_of_le hj1 with rfl | hlt
          · exact ⟨wd, hw, fun hnil => he (by simp [hnil])⟩
          · exact hall j (by omega) hj2

theorem load_games_go_games {env : Env} {season : Int} :
    ∀ (fuel s : Nat) (row : GameRow), row ∈ (load_games_go env season s fuel).2.1 →
      ∃ k, s ≤ k ∧ row ∈ gamesOfWeek env season k ∧
        ∀ j, s ≤ j → j ≤ k → weekNonempty env season j := by
  intro fuel
  induction fuel with
  | zero => intro s row hrow; cases hrow
  | succ f ih =>
    intro s row hrow
    unfold load_games_go at hrow
    cases hw : env.weekEvents season s with
    | none => rw [hw] at hrow; dsimp only at hrow; cases hrow
    | some wd =>
      rw [hw] at hrow
      dsimp only at hrow
      by_cases he : wd.items.isEmpty
      · rw [if_pos he] at hrow; cases hrow
      · rw [if_neg he] at hrow
        have hne : weekNonempty env season s := ⟨wd, hw, fun hnil => he (by simp [hnil])⟩
        rcases List.mem_append.mp hrow with hrow | hrow
        · refine ⟨s, Nat.le_refl s, ?_, fun j hj1 hj2 => ?_⟩
          · unfold gamesOfWeek
            rw [hw]
            dsimp only
            rw [if_neg he]
            exact hrow
          · have : j = s := by omega
            subst this
            exact hne
        · obtain ⟨k, hk1, hk2, hall⟩ := ih (s + 1) row hrow
          refine ⟨k, by omega, hk2, fun j hj1 hj2 => ?_⟩
          rcases Nat.eq_or_lt_of_le hj1 with rfl | hlt
          · exact hne
          · exact hall j (by omega) hj2

/-! ### Claims -/

/-- Claim C1 (amended): every remote-call failure after a successful teams
stage is recovered locally — once `load_teams` succeeds, the extractor run
always runs to completion, whatever the rest of the environment answers —
while a failure of the initial teams-list fetch aborts the run with an
error. -/
theorem claim_C1_fault_tolerance :
    (∀ (env : Env) (season : Int) (skip : Bool) (mw : Nat) (ts : List TeamRow),
       load_teams env = Except.ok ts →
       ∃ fr, extractorMain env season skip mw = Except.ok fr) ∧
    extractorMain emptyEnv 2025 false 18 = Except.error "Could not fetch teams" := by
  constructor
  · intro env season skip mw ts h
    unfold extractorMain
    rw [h]
    exact ⟨_, rfl⟩
  · rfl

/-- Witness for C1: a run whose teams stage succeeds completes even though
every other remote call fails. -/
theorem claim_C1_witness :
    ∃ fr, extractorMain envOneTeam 2025 false 18 = Except.ok fr :=
  claim_C1_fault_tolerance.1 envOneTeam 2025 false 18
    [⟨some 12, "Chiefs", "Kansas", "AFC", "W"⟩] rfl

/-- Counterexample to C1 as stated: the failed teams fetch of `emptyEnv`
aborts the extractor run. -/
theorem claim_C1_counterexample :
    emptyEnv.teams = none ∧
    extractorMain emptyEnv 2025 false 18 = Except.error "Could not fetch teams" :=
  ⟨rfl, rfl⟩

/-- Claim C2 (amended): an event whose status was successfully fetched and is
not in the completed post-game state contributes zero stats rows; but when
the status reference cannot be fetched the event is processed as if
completed and may contribute rows. -/
theorem claim_C2_status_gate :
    (∀ (env : Env) (e : MetaEntry) (r : String) (s : StatusData),
       e.status_ref = some r → r ≠ "" → env.statusOf r = some s →
       (s.statusType.bind fun t => t.state) ≠ some "post" →
       statsForEntry env e = []) ∧
    (entryStatusDown.status_ref = some "st" ∧ envStatusDown.statusOf "st" = none ∧
     load_game_stats envStatusDown [entryStatusDown] = [row19]) := by
  constructor
  · intro env e r s hr hne hs hstate
    unfold statsForEntry
    cases he : e.event_id with
    | none => rfl
    | some eid =>
      cases hc : e.competition_id with
      | none => rfl
      | some cid =>
        dsimp only
        by_cases hz : eid = 0 ∨ cid = 0
        · rw [if_pos hz]
        · rw [if_neg hz, hr]
          dsimp only
          rw [if_neg hne, hs]
          dsimp only
          rw [if_pos hstate]
  · exact ⟨rfl, rfl, by decide⟩

/-- Witness for C2: a fetched in-progress status yields zero rows. -/
theorem claim_C2_witness : statsForEntry envLive entryLive = [] :=
  claim_C2_status_gate.1 envLive entryLive "st2" ⟨some ⟨some "in"⟩⟩ rfl
    (by decide) rfl (by decide)

/-- Counterexample to C2 as stated: the status reference of
`entryStatusDown` cannot be fetched, yet the event contributes a stats
row instead of zero. -/
theorem claim_C2_counterexample :
    entryStatusDown.status_ref = some "st" ∧ envStatusDown.statusOf "st" = none ∧
    load_game_stats envStatusDown [entryStatusDown] ≠ [] :=
  ⟨rfl, rfl, by decide⟩

/-- Claim C3 (amended): Player records whose id cannot be parsed are dropped,
so no PLAYER row has an absent key; Coach and Game records are not dropped
on an unparseable id — COACH and GAME rows with an absent key occur. -/
theorem claim_C3_id_keys :
    (∀ (env : Env) (tid : Int), ∀ r ∈ load_roster env tid, r.PlayerID ≠ none) ∧
    (∃ c ∈ load_coaches envCoachNull [1] 0, c.CoachID = none) ∧
    (∃ g ∈ (load_games envGameNoId 2025 18).2.1, g.GameID = none) := by
  refine ⟨?_, ?_, ?_⟩
  · intro env tid r hr
    obtain ⟨a, ha⟩ := load_roster_mem hr
    exact (buildPlayerRow_inv ha).1
  · exact ⟨⟨none, "", "Bill", 1, "Head Coach"⟩, by decide, rfl⟩
  · exact ⟨⟨none, "2025-09-07", 1, some 7, some 8, none, none⟩, by decide, rfl⟩

/-- Witness for C3 at a concrete roster row. -/
theorem claim_C3_witness :
    (⟨some 3139477, "Patrick", "Mahomes", "QB", 1⟩ : PlayerRow).PlayerID ≠ none :=
  claim_C3_id_keys.1 envRoster 1 _ (by decide)

/-- Counterexample to C3 as stated: the COACH output of `envCoachNull`
contains a row whose key is absent. -/
theorem claim_C3_counterexample :
    ¬ (∀ c ∈ load_coaches envCoachNull [1] 0, c.CoachID ≠ none) := by
  decide

/-- Claim C4: every GAME_STATS row that reaches the insert step references a
game id and a player id inserted in the same run; the excluded rows are
exactly the counted difference, and the filter is total (never fatal). -/
theorem claim_C4_referential_integrity
    (players games : List CsvKeyRow) (stats : List GameStatsCsvRow) :
    (∀ r ∈ loaderStatsInserted players games stats,
       (∃ g, r.GameID = some g ∧ g ∈ insertedKeyIDs games) ∧
       (∃ p, r.PlayerID = some p ∧ p ∈ insertedKeyIDs players)) ∧
    (loaderStatsInserted players games stats).length
        + loaderSkippedCount players games stats = stats.length := by
  constructor
  · intro r hr
    unfold loaderStatsInserted filterGameStats at hr
    obtain ⟨_, hp⟩ := List.mem_filter.mp hr
    cases hg : r.GameID with
    | none => rw [hg] at hp; cases hpid : r.PlayerID <;> rw [hpid] at hp <;> cases hp
    | some g =>
      cases hpid : r.PlayerID with
      | none => rw [hg, hpid] at hp; cases hp
      | some p =>
        rw [hg, hpid] at hp
        dsimp only at hp
        rw [Bool.and_eq_true] at hp
        exact ⟨⟨g, rfl, of_decide_eq_true hp.1⟩, ⟨p, rfl, of_decide_eq_true hp.2⟩⟩
  · unfold loaderSkippedCount
    have hle : (loaderStatsInserted players games stats).length ≤ stats.length :=
      List.length_filter_le _ _
    omega

/-- Witness for C4: the surviving row of the loader fixtures has both
parents among the inserted ids. -/
theorem claim_C4_witness :
    (∃ g, (⟨some 1, some 2, []⟩ : GameStatsCsvRow).GameID = some g ∧
       g ∈ insertedKeyIDs csvGames) ∧
    (∃ p, (⟨some 1, some 2, []⟩ : GameStatsCsvRow).PlayerID = some p ∧
       p ∈ insertedKeyIDs csvPlayers) :=
  (claim_C4_referential_integrity csvPlayers csvGames csvStats).1
    ⟨some 1, some 2, []⟩ (by decide)

/-- Claim C5 (amended): deduplication by (event, athlete) is applied within
one competitor's boxscore, so each competitor contributes at most one row
per (GameID, PlayerID); an athlete listed in both competitors' boxscores of
the same event is emitted once per competitor, duplicating the pair. -/
theorem claim_C5_dedup_per_competitor :
    (∀ (env : Env) (eid cid : Int) (c : CompetitorJson),
       ((rowsForCompetitor env eid cid c).map (fun r => (r.GameID, r.PlayerID))).Nodup) ∧
    (load_game_stats envDupAth [entryDupAth]).map (fun r => (r.GameID, r.PlayerID))
      = [(1, 9), (1, 9)] := by
  constructor
  · intro env eid cid c
    unfold rowsForCompetitor
    cases safe_int c.id with
    | none => simp
    | some tid =>
      dsimp only
      by_cases hz : tid = 0
      · rw [if_pos hz]; simp
      · rw [if_neg hz]
        cases env.teamStats eid cid tid with
        | none => simp
        | some block => exact (statRowsLoop_spec env eid (collectAthleteRefs block) []).2
  · decide

/-- Counterexample to C5 as stated: with the same athlete in both boxscores
the (GameID, PlayerID) pairs of the output are not distinct. -/
theorem claim_C5_counterexample :
    ¬ ((load_game_stats envDupAth [entryDupAth]).map
        (fun r => (r.GameID, r.PlayerID))).Nodup := by
  decide

/-- Claim C6 (code bug in the source): a team record whose `location` and
`displayName` are both blank makes the City expression raise `IndexError`
(modelled as `none`), so the teams stage fails instead of emitting empty
strings. -/
theorem claim_C6_city_crash :
    buildTeamRow teamNoCity = none ∧
    load_teams envCityCrash = Except.error "IndexError: list index out of range" :=
  ⟨rfl, rfl⟩

/-- Claim C7: after deduplication the player table has at most one row per
PlayerID, the retained row is the first occurrence in roster order, and the
post-hoc prune of stat-less players preserves key uniqueness. -/
theorem claim_C7_player_uniqueness (env : Env) (team_ids : List Int) (used : List Int) :
    ((load_all_players env team_ids).map (fun r => r.PlayerID)).Nodup ∧
    (∀ r ∈ load_all_players env team_ids,
       (team_ids.bind (load_roster env)).find? (fun x => x.PlayerID == r.PlayerID)
         = some r) ∧
    ((prunePlayers used (load_all_players env team_ids)).map
        (fun r => r.PlayerID)).Nodup := by
  have hspec := dropDupByPlayerID_spec (team_ids.bind (load_roster env)) []
  refine ⟨hspec.2, fun r hr => (hspec.1 r hr).2, ?_⟩
  have hsub : List.Sublist
      ((prunePlayers used (load_all_players env team_ids)).map (fun r => r.PlayerID))
      ((load_all_players env team_ids).map (fun r => r.PlayerID)) :=
    (List.filter_sublist _).map _
  exact hspec.2.sublist hsub

/-- Witness for C7: two rosters sharing athlete 42; the dedup keeps the
team-1 occurrence and the key list is duplicate-free. -/
theorem claim_C7_witness :
    ((load_all_players envRoster [1, 2]).map (fun r => r.PlayerID)).Nodup ∧
    ([1, 2].bind (load_roster envRoster)).find?
        (fun x => x.PlayerID == (⟨some 42, "Shared", "Guy", "WR", 1⟩ : PlayerRow).PlayerID)
      = some ⟨some 42, "Shared", "Guy", "WR", 1⟩ :=
  ⟨(claim_C7_player_uniqueness envRoster [1, 2] []).1,
   (claim_C7_player_uniqueness envRoster [1, 2] []).2.1 _ (by decide)⟩

/-- Claim C8: the scan runs over weeks 1 up to the cap (CLI default 18) and a
week listed with zero events stops it — no later week is queried, and every
GAME row comes from a strictly earlier week. -/
theorem claim_C8_week_scan (env : Env) (season : Int) (max_weeks w : Nat)
    (wd : WeekData) (hw1 : 1 ≤ w) (hwd : env.weekEvents season w = some wd)
    (hempty : wd.items = []) :
    default_max_weeks = 18 ∧
    (∀ k ∈ (load_games env season max_weeks).1, k ≤ w) ∧
    (∀ row ∈ (load_games env season max_weeks).2.1,
       ∃ k, 1 ≤ k ∧ k < w ∧ row ∈ gamesOfWeek env season k) := by
  refine ⟨rfl, ?_, ?_⟩
  · intro k hk
    obtain ⟨h1, hall⟩ := load_games_go_queried max_weeks 1 k hk
    by_contra hgt
    push_neg at hgt
    obtain ⟨wd2, hwd2, hne⟩ := hall w hw1 hgt
    rw [hwd] at hwd2
    injection hwd2 with h2
    exact hne (h2 ▸ hempty)
  · intro row hrow
    obtain ⟨k, hk1, hkmem, hall⟩ := load_games_go_games max_weeks 1 row hrow
    refine ⟨k, hk1, ?_, hkmem⟩
    by_contra hge
    push_neg at hge
    obtain ⟨wd2, hwd2, hne⟩ := hall w hw1 hge
    rw [hwd] at hwd2
    injection hwd2 with h2
    exact hne (h2 ▸ hempty)

/-- Witness for C8: weeks 1 and 2 scheduled, week 3 listed empty, weeks 4
and 5 scheduled but never reached. -/
theorem claim_C8_witness :
    default_max_weeks = 18 ∧
    (∀ k ∈ (load_games envWeeks 2025 18).1, k ≤ 3) ∧
    (∀ row ∈ (load_games envWeeks 2025 18).2.1,
       ∃ k, 1 ≤ k ∧ k < 3 ∧ row ∈ gamesOfWeek envWeeks 2025 k) :=
  claim_C8_week_scan envWeeks 2025 18 3 ⟨[]⟩ (by decide) rfl rfl

/-- Claim C9: every emitted text field respects its fixed width — 15
characters for team name, city and first/last names, 4 for position. -/
theorem claim_C9_truncation :
    (∀ (env : Env) (ts : List TeamRow), load_teams env = Except.ok ts →
       ∀ t ∈ ts, t.TeamName.length ≤ 15 ∧ t.City.length ≤ 15) ∧
    (∀ (env : Env) (tid : Int), ∀ r ∈ load_roster env tid,
       r.Fname.length ≤ 15 ∧ r.Lname.length ≤ 15 ∧ r.Position.length ≤ 4) ∧
    (∀ (env : Env) (tids : List Int) (season : Int),
       ∀ c ∈ load_coaches env tids season,
         c.FName.length ≤ 15 ∧ c.LName.length ≤ 15) := by
  refine ⟨?_, ?_, ?_⟩
  · intro env ts h t ht
    unfold load_teams at h
    cases he : env.teams with
    | none => rw [he] at h; cases h
    | some data =>
      rw [he] at h
      dsimp only at h
      cases hb : buildTeamRows (teamRecs data) with
      | none => rw [hb] at h; cases h
      | some rows =>
        rw [hb] at h
        injection h with h2
        obtain ⟨trec, _, hbt⟩ := buildTeamRows_mem hb (h2 ▸ ht)
        exact buildTeamRow_lengths hbt
  · intro env tid r hr
    obtain ⟨a, ha⟩ := load_roster_mem hr
    exact (buildPlayerRow_inv ha).2
  · intro env tids season c hc
    obtain ⟨tid, listing, _, hfc⟩ := load_coaches_mem hc
    exact firstCoachRow_lengths hfc

/-- Witness for C9 at concrete team, roster and coach rows. -/
theorem claim_C9_witness :
    ((⟨some 12, "Chiefs", "Kansas", "AFC", "W"⟩ : TeamRow).TeamName.length ≤ 15 ∧
     (⟨some 12, "Chiefs", "Kansas", "AFC", "W"⟩ : TeamRow).City.length ≤ 15) ∧
    ((⟨some 3139477, "Patrick", "Mahomes", "QB", 1⟩ : PlayerRow).Fname.length ≤ 15 ∧
     (⟨some 3139477, "Patrick", "Mahomes", "QB", 1⟩ : PlayerRow).Lname.length ≤ 15 ∧
     (⟨some 3139477, "Patrick", "Mahomes", "QB", 1⟩ : PlayerRow).Position.length ≤ 4) ∧
    ((⟨none, "", "Bill", 1, "Head Coach"⟩ : CoachRow).FName.length ≤ 15 ∧
     (⟨none, "", "Bill", 1, "Head Coach"⟩ : CoachRow).LName.length ≤ 15) :=
  ⟨claim_C9_truncation.1 envOneTeam [⟨some 12, "Chiefs", "Kansas", "AFC", "W"⟩] rfl
     _ (by decide),
   claim_C9_truncation.2.1 envRoster 1 _ (by decide),
   claim_C9_truncation.2.2 envCoachNull [1] 0 _ (by decide)⟩

/-- Claim C10: a failed fetch of a week listing stops the scan exactly like
an empty week — no later week is queried and every GAME row comes from a
strictly earlier week. -/
theorem claim_C10_week_fetch_failure (env : Env) (season : Int) (max_weeks w : Nat)
    (hw1 : 1 ≤ w) (hwd : env.weekEvents season w = none) :
    (∀ k ∈ (load_games env season max_weeks).1, k ≤ w) ∧
    (∀ row ∈ (load_games env season max_weeks).2.1,
       ∃ k, 1 ≤ k ∧ k < w ∧ row ∈ gamesOfWeek env season k) := by
  constructor
  · intro k hk
    obtain ⟨h1, hall⟩ := load_games_go_queried max_weeks 1 k hk
    by_contra hgt
    push_neg at hgt
    obtain ⟨wd2, hwd2, _⟩ := hall w hw1 hgt
    rw [hwd] at hwd2
    cases hwd2
  · intro row hrow
    obtain ⟨k, hk1, hkmem, hall⟩ := load_games_go_games max_weeks 1 row hrow
    refine ⟨k, hk1, ?_, hkmem⟩
    by_contra hge
    push_neg at hge
    obtain ⟨wd2, hwd2, _⟩ := hall w hw1 hge
    rw [hwd] at hwd2
    cases hwd2

/-- Witness for C10: week 1 scheduled, the week 2 listing fetch fails. -/
theorem claim_C10_witness :
    (∀ k ∈ (load_games envWeekFail 2025 18).1, k ≤ 2) ∧
    (∀ row ∈ (load_games envWeekFail 2025 18).2.1,
       ∃ k, 1 ≤ k ∧ k < 2 ∧ row ∈ gamesOfWeek envWeekFail 2025 k) :=
  claim_C10_week_fetch_failure envWeekFail 2025 18 2 (by decide) rfl
